import Mathlib

/-!
Verification development for the Lead-Qualification-Agent repository
(`src/app.py`): a Streamlit front end that validates a lead submission
(email or form) and runs a four-stage sequential CrewAI pipeline
(Extract/Structure → Enrich → Score → Recommend).

The embedding below translates the source:
* the email-format regex `^[^@]+@[^@]+\.[^@]+$` checked with Python
  `re.match` (src/app.py lines 413 and 421);
* the required-field checks (lines 410 and 418);
* the agents, task descriptions, context wiring and crews built by
  `run_email_lead_qualification` (lines 80-194) and
  `run_form_lead_qualification` (lines 197-276) — multi-line task
  description strings are reproduced with their text and line structure,
  with the uniform 8-space Python indentation normalized away;
* the top-level submission handler (lines 366-475): API-key gate,
  validation, crew kickoff inside try/except.

The scoring rubric exists in the source only as prompt text inside
`score_task`, and the execution semantics of `Process.sequential`
kickoff live in the third-party CrewAI framework; both are modelled
from the spec where noted.
-/

namespace LeadQual

/-! ### Python email regex `^[^@]+@[^@]+\.[^@]+$` -/

/-- True when no character of `l` is an at-sign, i.e. `l` is matched by
`[^@]*`. -/
def noAt (l : List Char) : Bool :=
  l.all (fun c => c ≠ '@')

/-- True when `l` has a dot at an interior position (neither first nor
last), i.e. `l` is matched by `[^@]+\.[^@]+` once `noAt l` holds. -/
def hasInteriorDot (l : List Char) : Bool :=
  ((l.drop 1).dropLast).contains '.'

/-- The language of the regex `^[^@]+@[^@]+\.[^@]+$` over a character
list: one or more non-`@` characters, an `@`, then a non-`@` tail that
contains an interior dot. -/
def emailCoreMatch (l : List Char) : Bool :=
  match l.span (fun c => c ≠ '@') with
  | (a, b) =>
    match b with
    | [] => false
    | _ :: t => !a.isEmpty && noAt t && hasInteriorDot t

/-- Python `re.match(r'^[^@]+@[^@]+\.[^@]+$', s)` as a Boolean: `$` also
matches just before a single trailing newline, as in Python's `re`. -/
def pyEmailMatch (s : String) : Bool :=
  emailCoreMatch s.toList ||
    (match s.toList.getLast? with
     | some c => c = '\n' && emailCoreMatch s.toList.dropLast
     | none => false)

/-! ### Scoring rubric (spec §4.1; prompt text of `score_task`,
src/app.py lines 124-158) -/

/-- Modelled from the spec: the email-domain band of the rubric
(src/app.py lines 134-137 state it only as prompt text, there is no
executable scorer in the source). -/
inductive DomainBand
  | business
  | genericWithCompany
  | genericOnly
deriving DecidableEq

/-- Modelled from the spec: email-domain component, maximum 20 points. -/
def emailDomainScore : DomainBand → Nat
  | .business => 20
  | .genericWithCompany => 10
  | .genericOnly => 0

/-- Modelled from the spec: which of the three company-fit criteria
match the target configuration (additive, independent). -/
structure CompanyFit where
  industryMatch : Bool
  sizeMatch : Bool
  regionMatch : Bool
deriving DecidableEq

/-- Modelled from the spec: company-fit component, maximum 40 points
(industry 20, size 10, region 10, additive). -/
def companyFitScore (f : CompanyFit) : Nat :=
  (if f.industryMatch then 20 else 0) +
    (if f.sizeMatch then 10 else 0) +
    (if f.regionMatch then 10 else 0)

/-- Modelled from the spec: the contact-role band of the rubric. -/
inductive RoleBand
  | decisionMaker
  | influencer
  | unclear
deriving DecidableEq

/-- Modelled from the spec: contact-role component, maximum 20 points. -/
def contactRoleScore : RoleBand → Nat
  | .decisionMaker => 20
  | .influencer => 10
  | .unclear => 0

/-- Modelled from the spec: the message-intent band of the rubric. -/
inductive IntentBand
  | specificRequest
  | generalInquiry
  | vague
deriving DecidableEq

/-- Modelled from the spec: message-intent component, maximum 20 points. -/
def messageIntentScore : IntentBand → Nat
  | .specificRequest => 20
  | .generalInquiry => 10
  | .vague => 0

/-- Modelled from the spec: one lead's band assignment under the rubric. -/
structure ScoreInput where
  domain : DomainBand
  fit : CompanyFit
  role : RoleBand
  intent : IntentBand
deriving DecidableEq

/-- Modelled from the spec: the 0-100 total is the sum of the four
category components. -/
def total_score (i : ScoreInput) : Nat :=
  emailDomainScore i.domain + companyFitScore i.fit +
    contactRoleScore i.role + messageIntentScore i.intent

/-- Modelled from the spec: qualification thresholds applied to the
total (Qualified 80+, Needs Review 50-79, Unqualified below 50), as in
the prompt text at src/app.py line 157. -/
def qualification_status (n : Nat) : String :=
  if 80 ≤ n then "Qualified"
  else if 50 ≤ n then "Needs Review"
  else "Unqualified"

/-! ### Agents (`create_lead_qualification_crew`, src/app.py lines 22-77) -/

/-- A CrewAI agent as configured in the source: role, goal, backstory,
the model name of its LLM, and the two Boolean flags the source sets. -/
structure Agent where
  role : String
  goal : String
  backstory : String
  llm : String
  verbose : Bool
  allow_delegation : Bool
deriving DecidableEq

/-- The dictionary returned by `create_lead_qualification_crew`. -/
structure AgentsDict where
  email_parser_agent : Agent
  company_researcher : Agent
  lead_scorer : Agent
  recommendation_agent : Agent
  llm : String
deriving DecidableEq

/-- `create_lead_qualification_crew(model_name)`: the four agents of the
pipeline (src/app.py lines 22-77). -/
def create_lead_qualification_crew (model_name : String) : AgentsDict :=
  { email_parser_agent :=
      { role := "Email Information Extractor"
        goal := "Extract all relevant contact and company information from email content"
        backstory := "You are an expert at parsing emails and extracting structured data. You can identify names, companies, job titles, and intent from email text."
        llm := model_name, verbose := true, allow_delegation := false }
    company_researcher :=
      { role := "Company Research Specialist"
        goal := "Research and gather detailed information about companies including industry, size, and location"
        backstory := "You are a business intelligence expert who can infer company details from domains and email information. You understand business classifications and market segments."
        llm := model_name, verbose := true, allow_delegation := false }
    lead_scorer :=
      { role := "Lead Qualification Specialist"
        goal := "Score leads based on email quality, company fit, role seniority, and message intent"
        backstory := "You are an experienced sales qualification expert who can assess lead quality. You understand buyer personas, decision-making hierarchies, and sales readiness signals."
        llm := model_name, verbose := true, allow_delegation := false }
    recommendation_agent :=
      { role := "Sales Strategy Advisor"
        goal := "Provide actionable recommendations for engaging with leads based on their qualification score"
        backstory := "You are a senior sales strategist who advises on lead engagement tactics. You know when to prioritize, nurture, or disqualify leads."
        llm := model_name, verbose := true, allow_delegation := false }
    llm := model_name }

/-! ### Tasks and crews -/

/-- A CrewAI `Task` as configured in the source: its instruction text,
its agent, its expected output, and the context tasks it receives,
recorded as the 0-based positions of those tasks in the crew's task
list. -/
structure TaskSpec where
  description : String
  agent : Agent
  expected_output : String
  context : List Nat
deriving DecidableEq

/-- The operator-chosen `target_config` dictionary (industries, company
sizes, regions), built by `render_sidebar` (src/app.py lines 350-357). -/
structure TargetConfig where
  industries : List String
  company_sizes : List String
  regions : List String
deriving DecidableEq

/-- The `Target Criteria` block interpolated into both score tasks
(src/app.py lines 127-130 and 241-244): three lines rendered with
Python `', '.join(...)`. -/
def target_criteria_text (cfg : TargetConfig) : String :=
  "Target Criteria:\n- Target Industries: " ++ String.intercalate ", " cfg.industries ++
    "\n- Target Company Sizes: " ++ String.intercalate ", " cfg.company_sizes ++
    "\n- Target Regions: " ++ String.intercalate ", " cfg.regions

/-- `parse_task` of `run_email_lead_qualification` (src/app.py lines
84-102). -/
def email_parse_task (agents : AgentsDict) (sender_email email_subject email_content : String) : TaskSpec :=
  { description :=
      "\nExtract the following information from this email:\n- Sender Email: " ++
        sender_email ++ "\n- Subject: " ++ email_subject ++ "\n- Content: " ++
        email_content ++
        "\n\nExtract and return:\n1. Sender's full name (if mentioned)\n2. Company name (if mentioned or inferred from email domain)\n3. Job title/designation (if mentioned)\n4. Email domain\n5. Main intent/purpose of the email\n\nReturn in structured format.\n"
    agent := agents.email_parser_agent
    expected_output := "Structured JSON with sender_name, company_name, designation, domain, and intent"
    context := [] }

/-- `research_task` of `run_email_lead_qualification` (src/app.py lines
105-120); its context is `[parse_task]`, position 0. -/
def email_research_task (agents : AgentsDict) : TaskSpec :=
  { description :=
      "\nBased on the parsed email information and domain, research and infer:\n1. Company industry (classify into: Technology, Healthcare, Finance, Manufacturing, Retail, Education, Consulting, Real Estate, or Other)\n2. Estimated company size (Startup 1-50, SMB 51-500, Enterprise 500+)\n3. Geographic location (infer from domain or context)\n\nUse the email domain and any context clues from the email content.\nIf domain is generic (gmail, yahoo, etc.), note it as \"Personal Email - No Company Data\"\n\nReturn structured company information.\n"
    agent := agents.company_researcher
    expected_output := "JSON with industry, company_size, location, and domain_type"
    context := [0] }

/-- `score_task` of `run_email_lead_qualification` (src/app.py lines
123-162); its context is `[parse_task, research_task]`, positions 0, 1. -/
def email_score_task (agents : AgentsDict) (target_config : TargetConfig) : TaskSpec :=
  { description :=
      "\nScore this lead out of 100 points based on:\n\n" ++
        target_criteria_text target_config ++
        "\n\nScoring Rubric (100 points total):\n\n1. Email Domain Score (20 points):\n- Business email domain (not gmail/yahoo/hotmail): 20 points\n- Generic email but company mentioned: 10 points\n- Generic email only: 0 points\n\n2. Company Fit Score (40 points):\n- Industry matches target: 20 points\n- Company size matches target: 10 points\n- Location matches target region: 10 points\n\n3. Contact Role Score (20 points):\n- C-level, VP, Director (decision maker): 20 points\n- Manager, Lead, Specialist (influencer): 10 points\n- No clear role or junior role: 0 points\n\n4. Message Intent Score (20 points):\n- Specific interest/request with clear need: 20 points\n- General inquiry about services: 10 points\n- Vague or spam-like message: 0 points\n\nReturn:\n- Total score (0-100)\n- Breakdown for each category with justification\n- Qualification status (Qualified 80+, Needs Review 50-79, Unqualified <50)\n"
    agent := agents.lead_scorer
    expected_output := "JSON with total_score, score_breakdown, and qualification_status"
    context := [0, 1] }

/-- `recommendation_task` of `run_email_lead_qualification` (src/app.py
lines 165-178); its context is `[parse_task, research_task, score_task]`,
positions 0, 1, 2. -/
def email_recommendation_task (agents : AgentsDict) : TaskSpec :=
  { description :=
      "\nBased on the lead score and analysis, provide:\n1. Clear recommendation on next steps (Forward to Sales, Manual Review, or Disqualify)\n2. Specific reasons for the recommendation\n3. Suggested talking points or concerns to address\n4. Priority level (High, Medium, Low)\n\nBe specific and actionable.\n"
    agent := agents.recommendation_agent
    expected_output := "Detailed recommendations with next steps and priority"
    context := [0, 1, 2] }

/-- `structure_task` of `run_form_lead_qualification` (src/app.py lines
201-219); the designation line renders Python
`designation or 'Not provided'`. -/
def form_structure_task (agents : AgentsDict) (name company designation email query : String) : TaskSpec :=
  { description :=
      "\nStructure the following form submission data:\n- Name: " ++ name ++
        "\n- Company: " ++ company ++ "\n- Designation: " ++
        (if designation = "" then "Not provided" else designation) ++
        "\n- Email: " ++ email ++ "\n- Query: " ++ query ++
        "\n\nExtract:\n1. Email domain\n2. Assess if email is business or personal\n3. Classify the intent/purpose from the query\n\nReturn structured format.\n"
    agent := agents.email_parser_agent
    expected_output := "Structured JSON with all form data and domain analysis"
    context := [] }

/-- `research_task` of `run_form_lead_qualification` (src/app.py lines
222-234); its context is `[structure_task]`, position 0. -/
def form_research_task (agents : AgentsDict) (company : String) : TaskSpec :=
  { description :=
      "\nBased on the company name \"" ++ company ++
        "\" and email domain, infer:\n1. Company industry\n2. Estimated company size\n3. Geographic location\n\nReturn structured company information.\n"
    agent := agents.company_researcher
    expected_output := "JSON with industry, company_size, and location"
    context := [0] }

/-- `score_task` of `run_form_lead_qualification` (src/app.py lines
237-251); its context is `[structure_task, research_task]`. -/
def form_score_task (agents : AgentsDict) (target_config : TargetConfig) : TaskSpec :=
  { description :=
      "\nScore this lead using the same 100-point rubric:\n\n" ++
        target_criteria_text target_config ++
        "\n\nApply the scoring rubric and return detailed breakdown.\n"
    agent := agents.lead_scorer
    expected_output := "JSON with total_score, score_breakdown, and qualification_status"
    context := [0, 1] }

/-- `recommendation_task` of `run_form_lead_qualification` (src/app.py
lines 254-261); its context is `[structure_task, research_task,
score_task]`. -/
def form_recommendation_task (agents : AgentsDict) : TaskSpec :=
  { description :=
      "\nProvide actionable recommendations based on the qualification score.\n"
    agent := agents.recommendation_agent
    expected_output := "Detailed recommendations with next steps"
    context := [0, 1, 2] }

/-- CrewAI's process kinds; the source always uses `Process.sequential`. -/
inductive ProcessKind
  | sequential
  | hierarchical
deriving DecidableEq

/-- A CrewAI `Crew` as configured in the source. -/
structure Crew where
  agents : List Agent
  tasks : List TaskSpec
  process : ProcessKind
deriving DecidableEq

/-- The crew built by `run_email_lead_qualification` (src/app.py lines
181-191). -/
def email_crew (agents : AgentsDict) (sender_email email_subject email_content : String)
    (target_config : TargetConfig) : Crew :=
  { agents := [agents.email_parser_agent, agents.company_researcher,
      agents.lead_scorer, agents.recommendation_agent]
    tasks := [email_parse_task agents sender_email email_subject email_content,
      email_research_task agents,
      email_score_task agents target_config,
      email_recommendation_task agents]
    process := .sequential }

/-- The crew built by `run_form_lead_qualification` (src/app.py lines
263-273). -/
def form_crew (agents : AgentsDict) (name company designation email query : String)
    (target_config : TargetConfig) : Crew :=
  { agents := [agents.email_parser_agent, agents.company_researcher,
      agents.lead_scorer, agents.recommendation_agent]
    tasks := [form_structure_task agents name company designation email query,
      form_research_task agents company,
      form_score_task agents target_config,
      form_recommendation_task agents]
    process := .sequential }

/-! ### Sequential execution of a crew -/

/-- The outcome of executing one task: the free-form text output of the
external model call, or a raised failure with its description. -/
inductive TaskResult
  | ok (out : String)
  | err (msg : String)
deriving DecidableEq

/-- What one started stage leaves behind: the task, the context texts it
was given, and its result. -/
structure StageRecord where
  task : TaskSpec
  ctx : List String
  out : TaskResult
deriving DecidableEq

/-- Modelled from the spec: `crew.kickoff()` with `Process.sequential`
(the CrewAI framework itself is not part of this repository). Spec §4.2:
stages run strictly in order, stage N's instruction is given the raw
text outputs of its context tasks (stages 1..N-1), any failure aborts
the pipeline immediately and no later stage starts. `execTask` is the
external text-generation capability: it receives a task and the outputs
of that task's context tasks. `acc` holds the outputs of the stages
already completed; the result records every stage that started. -/
def runSeqRec (execTask : TaskSpec → List String → TaskResult) :
    List TaskSpec → List String → List StageRecord
  | [], _ => []
  | t :: ts, acc =>
    let c := t.context.filterMap (fun j => acc[j]?)
    match execTask t c with
    | .ok o => ⟨t, c, .ok o⟩ :: runSeqRec execTask ts (acc ++ [o])
    | .err m => [⟨t, c, .err m⟩]

/-- The outputs of the completed stages among `rs`. -/
def stageOutputs (rs : List StageRecord) : List String :=
  rs.filterMap (fun r => match r.out with | .ok o => some o | .err _ => none)

/-- Modelled from the spec: the value `crew.kickoff()` returns — the
final stage's output — or the raised failure. -/
def crew_kickoff (execTask : TaskSpec → List String → TaskResult) (crew : Crew) : TaskResult :=
  match (runSeqRec execTask crew.tasks []).getLast? with
  | some r => r.out
  | none => .ok ""

/-! ### Top-level submission handling (src/app.py lines 366-475) -/

/-- One user submission: the email tab's fields or the form tab's
fields. -/
inductive Submission
  | email (sender_email email_subject email_content : String)
  | form (name company designation email query : String)

/-- The email field a submission's regex check applies to
(`sender_email` at line 413, `form_email` at line 421). -/
def submission_email : Submission → String
  | .email s _ _ => s
  | .form _ _ _ e _ => e

/-- The validation block at src/app.py lines 409-424: the
required-field check (`all([...])`, an empty string being falsy) runs
first and `st.stop()`s, then the regex check. Returns the `st.error`
message when the submission is rejected. The form's designation field
is not in its required list. -/
def validate : Submission → Option String
  | .email sender_email email_subject email_content =>
    if sender_email = "" ∨ email_subject = "" ∨ email_content = "" then
      some "❌ Please fill all required fields"
    else if ¬ pyEmailMatch sender_email then
      some "❌ Invalid email address"
    else none
  | .form form_name form_company _ form_email form_query =>
    if form_name = "" ∨ form_company = "" ∨ form_email = "" ∨ form_query = "" then
      some "❌ Please fill all required fields"
    else if ¬ pyEmailMatch form_email then
      some "❌ Invalid email address"
    else none

/-- The crew a submission is routed to (src/app.py lines 428-452). -/
def submission_crew (model : String) (target_config : TargetConfig) : Submission → Crew
  | .email s subj c => email_crew (create_lead_qualification_crew model) s subj c target_config
  | .form n co d e q => form_crew (create_lead_qualification_crew model) n co d e q target_config

/-- What the user is shown for one submission. -/
inductive Display
  | apiKeyMissing (msg : String)
  | validationError (msg : String)
  | success (output : String)
  | failure (msg : String)
deriving DecidableEq

/-- The whole request path of src/app.py: line 16 defaults the missing
environment variable to the empty string, lines 366-368 stop the script
when the key is empty, lines 409-424 validate, and lines 426-475 run
the crew inside try/except — `st.error(f"Error: {str(e)}")` on a raised
failure (no stage output is shown), `st.code(str(result))` on success.
Returns the display and the records of every pipeline stage that
started. -/
def app_run (env_api_key : Option String) (model : String) (target_config : TargetConfig)
    (execTask : TaskSpec → List String → TaskResult) (sub : Submission) :
    Display × List StageRecord :=
  let key := env_api_key.getD ""
  if key = "" then (.apiKeyMissing "⚠️ Please set your OpenAI API key", [])
  else
    match validate sub with
    | some m => (.validationError m, [])
    | none =>
      let crew := submission_crew model target_config sub
      let recs := runSeqRec execTask crew.tasks []
      (match recs.getLast? with
       | some r =>
         match r.out with
         | .ok o => Display.success o
         | .err m => Display.failure ("Error: " ++ m)
       | none => Display.success "", recs)

/-- The submission has a field that its adapter's `all([...])` check
requires non-empty, but empty (src/app.py lines 410 and 418; the form's
designation is not in the checked list). -/
def has_empty_required_field : Submission → Prop
  | .email sender_email email_subject email_content =>
    sender_email = "" ∨ email_subject = "" ∨ email_content = ""
  | .form form_name form_company _ form_email form_query =>
    form_name = "" ∨ form_company = "" ∨ form_email = "" ∨ form_query = ""

/-! ### Sanity checks on the regex model -/

example : pyEmailMatch "john@company.com" = true := by decide
example : pyEmailMatch "a@b.c" = true := by decide
example : pyEmailMatch "a@b.c.d" = true := by decide
example : pyEmailMatch "a@bc" = false := by decide
example : pyEmailMatch "@b.c" = false := by decide
example : pyEmailMatch "a@.c" = false := by decide
example : pyEmailMatch "a@b." = false := by decide
example : pyEmailMatch "a@b@c.d" = false := by decide
example : pyEmailMatch "" = false := by decide
example : pyEmailMatch "a@b.c\n" = true := by decide

/-! ### Helper lemmas -/

/-- Indexing a list at `0, 1, ..., n-1` and keeping the hits is taking
its first `n` elements. -/
lemma filterMap_idx_range (l : List String) :
    ∀ n, n ≤ l.length → (List.range n).filterMap (fun j => l[j]?) = l.take n := by
  intro n
  induction n with
  | zero => intro _; simp
  | succ k ih =>
    intro h
    rw [List.range_succ, List.filterMap_append, ih (Nat.le_of_succ_le h), List.take_succ]
    cases hlk : l[k]? <;> simp [List.filterMap_cons, hlk]

/-- In a sequential run whose tasks each name all earlier tasks as
context, the context texts handed to every started stage are the
accumulated outputs so far: `acc` plus the outputs of the stages of this
run that precede it. -/
lemma runSeqRec_ctx (execTask : TaskSpec → List String → TaskResult) :
    ∀ (tasks : List TaskSpec) (acc : List String),
      (∀ i t, tasks[i]? = some t → t.context = List.range (acc.length + i)) →
      ∀ i r, (runSeqRec execTask tasks acc)[i]? = some r →
        r.ctx = acc ++ stageOutputs ((runSeqRec execTask tasks acc).take i) := by
  intro tasks
  induction tasks with
  | nil =>
    intro acc _ i r hr
    simp [runSeqRec] at hr
  | cons t ts ih =>
    intro acc h i r hr
    have hctx : t.context.filterMap (fun j => acc[j]?) = acc := by
      have h0 := h 0 t (by simp)
      rw [h0, Nat.add_zero, filterMap_idx_range acc acc.length (Nat.le_refl _),
        List.take_length]
    rcases ho : execTask t (t.context.filterMap (fun j => acc[j]?)) with o | m
    · have hrec : runSeqRec execTask (t :: ts) acc =
          ⟨t, acc, .ok o⟩ :: runSeqRec execTask ts (acc ++ [o]) := by
        rw [runSeqRec, ho, hctx]
      rw [hrec] at hr ⊢
      cases i with
      | zero =>
        simp only [List.getElem?_cons_zero, Option.some.injEq] at hr
        subst hr
        simp [stageOutputs]
      | succ j =>
        simp only [List.getElem?_cons_succ] at hr
        have h' : ∀ i t', ts[i]? = some t' →
            t'.context = List.range ((acc ++ [o]).length + i) := by
          intro i t' ht'
          have := h (i + 1) t' (by simpa using ht')
          rw [this]
          congr 1
          simp
          omega
        have := ih (acc ++ [o]) h' j r hr
        rw [this]
        simp [stageOutputs, List.filterMap_cons, List.append_assoc]
    · have hrec : runSeqRec execTask (t :: ts) acc = [⟨t, acc, .err m⟩] := by
        rw [runSeqRec, ho, hctx]
      rw [hrec] at hr ⊢
      cases i with
      | zero =>
        simp only [List.getElem?_cons_zero, Option.some.injEq] at hr
        subst hr
        simp [stageOutputs]
      | succ j =>
        simp at hr


/-- In a sequential run, a stage that raises is the last record: every
earlier stage completed, no later stage started. -/
lemma runSeqRec_err_at (execTask : TaskSpec → List String → TaskResult) :
    ∀ (tasks : List TaskSpec) (acc : List String) (k : Nat) (r : StageRecord) (m : String),
      (runSeqRec execTask tasks acc)[k]? = some r → r.out = .err m →
      (runSeqRec execTask tasks acc).length = k + 1 ∧
        (runSeqRec execTask tasks acc).getLast? = some r := by
  intro tasks
  induction tasks with
  | nil =>
    intro acc k r m hr _
    simp [runSeqRec] at hr
  | cons t ts ih =>
    intro acc k r m hr herr
    rcases ho : execTask t (t.context.filterMap (fun j => acc[j]?)) with o | m'
    · have hrec : runSeqRec execTask (t :: ts) acc =
          ⟨t, t.context.filterMap (fun j => acc[j]?), .ok o⟩ ::
            runSeqRec execTask ts (acc ++ [o]) := by
        rw [runSeqRec, ho]
      rw [hrec] at hr ⊢
      cases k with
      | zero =>
        simp only [List.getElem?_cons_zero, Option.some.injEq] at hr
        subst hr
        simp at herr
      | succ j =>
        simp only [List.getElem?_cons_succ] at hr
        obtain ⟨hlen, hlast⟩ := ih (acc ++ [o]) j r m hr herr
        refine ⟨by simp [hlen], ?_⟩
        have hne : runSeqRec execTask ts (acc ++ [o]) ≠ [] := by
          intro hnil
          rw [hnil] at hlen
          simp at hlen
        rcases hrest : runSeqRec execTask ts (acc ++ [o]) with _ | ⟨y, ys⟩
        · exact absurd hrest hne
        · rw [hrest] at hlast
          rw [List.getLast?_cons_cons, hlast]
    · have hrec : runSeqRec execTask (t :: ts) acc =
          [⟨t, t.context.filterMap (fun j => acc[j]?), .err m'⟩] := by
        rw [runSeqRec, ho]
      rw [hrec] at hr ⊢
      cases k with
      | zero =>
        simp only [List.getElem?_cons_zero, Option.some.injEq] at hr
        subst hr
        exact ⟨rfl, rfl⟩
      | succ j =>
        simp at hr

/-- A submission with an empty required field is rejected by the first
validation check with the missing-fields message, whatever the email
field holds. -/
lemma validate_of_missing (sub : Submission) (h : has_empty_required_field sub) :
    validate sub = some "❌ Please fill all required fields" := by
  cases sub with
  | email s b c =>
    simp only [has_empty_required_field] at h
    simp [validate, h]
  | form n co d e q =>
    simp only [has_empty_required_field] at h
    simp [validate, h]

/-- When validation rejects, the handler shows that validation error and
starts no pipeline stage. -/
lemma app_run_of_validation_error (k model : String) (cfg : TargetConfig)
    (execTask : TaskSpec → List String → TaskResult) (sub : Submission) (m : String)
    (hk : k ≠ "") (hv : validate sub = some m) :
    app_run (some k) model cfg execTask sub = (.validationError m, []) := by
  simp [app_run, hk, hv]

/-- A nonempty string passed the regex check, so `pyEmailMatch` of the
empty string being false forces the field nonempty. -/
lemma ne_empty_of_pyEmailMatch (e : String) (h : pyEmailMatch e = true) : e ≠ "" := by
  intro he
  subst he
  exact absurd h (by decide)

/-- When the key is present and validation passes, the handler runs the
submission's crew: the records are the sequential run's records, the
display is read off the final record. -/
lemma app_run_of_valid (k model : String) (cfg : TargetConfig)
    (execTask : TaskSpec → List String → TaskResult) (sub : Submission)
    (hk : k ≠ "") (hv : validate sub = none) :
    app_run (some k) model cfg execTask sub =
      (match (runSeqRec execTask (submission_crew model cfg sub).tasks []).getLast? with
       | some r =>
         match r.out with
         | .ok o => Display.success o
         | .err m => Display.failure ("Error: " ++ m)
       | none => Display.success "",
       runSeqRec execTask (submission_crew model cfg sub).tasks []) := by
  simp only [app_run, Option.getD]
  rw [if_neg hk, hv]

/-! ### Shared concrete inputs for the witnesses -/

/-- A concrete operator target configuration. -/
def cfgW : TargetConfig :=
  ⟨["Technology"], ["SMB (51-500)"], ["North America"]⟩

/-- A concrete valid email submission. -/
def subW : Submission :=
  .email "john@acme.com" "Pricing" "We need enterprise pricing for 500 seats"

/-- An external capability that answers every stage with the text "o". -/
def okExec : TaskSpec → List String → TaskResult := fun _ _ => .ok "o"

/-- An external capability whose first call raises with description
"boom". -/
def errExec : TaskSpec → List String → TaskResult := fun _ _ => .err "boom"

/-! ### The claims -/

/-- C1: for every score input the total lead score equals the sum of the
four category components; each component is at most its band maximum
(email-domain 20, company-fit 40, contact-role 20, message-intent 20);
and the qualification label is the pure threshold function of the 0-100
total, with exact boundaries: 80 or more gives "Qualified", 50 through
79 gives "Needs Review", below 50 gives "Unqualified", so 79 maps to
"Needs Review", 80 to "Qualified", 49 to "Unqualified" and 50 to "Needs
Review". -/
theorem rubric_total_components_and_thresholds (i : ScoreInput) :
    total_score i =
      emailDomainScore i.domain + companyFitScore i.fit +
        contactRoleScore i.role + messageIntentScore i.intent ∧
    emailDomainScore i.domain ≤ 20 ∧
    companyFitScore i.fit ≤ 40 ∧
    contactRoleScore i.role ≤ 20 ∧
    messageIntentScore i.intent ≤ 20 ∧
    total_score i ≤ 100 ∧
    (∀ n : Nat, 80 ≤ n → qualification_status n = "Qualified") ∧
    (∀ n : Nat, 50 ≤ n → n ≤ 79 → qualification_status n = "Needs Review") ∧
    (∀ n : Nat, n < 50 → qualification_status n = "Unqualified") ∧
    qualification_status 79 = "Needs Review" ∧
    qualification_status 80 = "Qualified" ∧
    qualification_status 49 = "Unqualified" ∧
    qualification_status 50 = "Needs Review" := by
  obtain ⟨d, ⟨fi, fs, fr⟩, ro, it⟩ := i
  refine ⟨rfl, ?_, ?_, ?_, ?_, ?_, ?_, ?_, ?_, by decide, by decide, by decide, by decide⟩
  · cases d <;> simp [emailDomainScore]
  · cases fi <;> cases fs <;> cases fr <;> simp [companyFitScore]
  · cases ro <;> simp [contactRoleScore]
  · cases it <;> simp [messageIntentScore]
  · cases d <;> cases fi <;> cases fs <;> cases fr <;> cases ro <;> cases it <;> decide
  · intro n h
    simp [qualification_status, h]
  · intro n h1 h2
    have h3 : ¬ 80 ≤ n := by omega
    simp [qualification_status, h1, h3]
  · intro n h
    have h1 : ¬ 80 ≤ n := by omega
    have h2 : ¬ 50 ≤ n := by omega
    simp [qualification_status, h1, h2]

/-- C2: in every pipeline run, email or form, the context handed to
stage N is exactly the outputs of stages 1 through N-1 and no others:
stage 1 receives no prior output, and every later started stage
receives all and only the earlier stages' outputs, in order. -/
theorem stage_context_is_exactly_prior_outputs
    (execTask : TaskSpec → List String → TaskResult) (model : String)
    (cfg : TargetConfig) (sub : Submission) (i : Nat) (r : StageRecord)
    (hr : (runSeqRec execTask (submission_crew model cfg sub).tasks [])[i]? = some r) :
    r.ctx = stageOutputs ((runSeqRec execTask (submission_crew model cfg sub).tasks []).take i) := by
  have hcontexts : ∀ j t, (submission_crew model cfg sub).tasks[j]? = some t →
      t.context = List.range (([] : List String).length + j) := by
    cases sub with
    | email s b c =>
      intro j t ht
      rcases j with _ | _ | _ | _ | j
      · simp only [submission_crew, email_crew, List.getElem?_cons_zero,
          Option.some.injEq] at ht
        subst ht
        rfl
      · simp only [submission_crew, email_crew, List.getElem?_cons_succ,
          List.getElem?_cons_zero, Option.some.injEq] at ht
        subst ht
        rfl
      · simp only [submission_crew, email_crew, List.getElem?_cons_succ,
          List.getElem?_cons_zero, Option.some.injEq] at ht
        subst ht
        rfl
      · simp only [submission_crew, email_crew, List.getElem?_cons_succ,
          List.getElem?_cons_zero, Option.some.injEq] at ht
        subst ht
        rfl
      · simp [submission_crew, email_crew] at ht
    | form n co d e q =>
      intro j t ht
      rcases j with _ | _ | _ | _ | j
      · simp only [submission_crew, form_crew, List.getElem?_cons_zero,
          Option.some.injEq] at ht
        subst ht
        rfl
      · simp only [submission_crew, form_crew, List.getElem?_cons_succ,
          List.getElem?_cons_zero, Option.some.injEq] at ht
        subst ht
        rfl
      · simp only [submission_crew, form_crew, List.getElem?_cons_succ,
          List.getElem?_cons_zero, Option.some.injEq] at ht
        subst ht
        rfl
      · simp only [submission_crew, form_crew, List.getElem?_cons_succ,
          List.getElem?_cons_zero, Option.some.injEq] at ht
        subst ht
        rfl
      · simp [submission_crew, form_crew] at ht
  simpa using runSeqRec_ctx execTask (submission_crew model cfg sub).tasks [] hcontexts i r hr

/-- Witness for C2: in a concrete email run where every stage outputs
"o", stage 4's recorded context is exactly the outputs of stages 1-3. -/
theorem stage_context_witness :
    (StageRecord.mk (email_recommendation_task (create_lead_qualification_crew "gpt-4o"))
        ["o", "o", "o"] (TaskResult.ok "o")).ctx =
      stageOutputs ((runSeqRec okExec (submission_crew "gpt-4o" cfgW subW).tasks []).take 3) :=
  stage_context_is_exactly_prior_outputs okExec "gpt-4o" cfgW subW 3
    (StageRecord.mk (email_recommendation_task (create_lead_qualification_crew "gpt-4o"))
      ["o", "o", "o"] (TaskResult.ok "o")) (by rfl)

/-- C3: for every valid input, email or form, exactly four stages
execute, strictly sequentially, in the fixed order Extract/Structure →
Enrich → Score → Recommend (their agents are, in order, the extractor,
the researcher, the scorer and the recommender), with no branching, no
retry and no early exit: when no stage raises, the run's records are
one per task, in the task list's order. -/
theorem pipeline_four_sequential_stages
    (model k : String) (cfg : TargetConfig) (sub : Submission)
    (f : TaskSpec → List String → String)
    (hk : k ≠ "") (hv : validate sub = none) :
    (submission_crew model cfg sub).process = ProcessKind.sequential ∧
    (submission_crew model cfg sub).tasks.length = 4 ∧
    (submission_crew model cfg sub).tasks.map (fun t => t.agent.role) =
      ["Email Information Extractor", "Company Research Specialist",
        "Lead Qualification Specialist", "Sales Strategy Advisor"] ∧
    (app_run (some k) model cfg (fun t c => .ok (f t c)) sub).2.map (fun r => r.task) =
      (submission_crew model cfg sub).tasks := by
  refine ⟨?_, ?_, ?_, ?_⟩
  · cases sub <;> rfl
  · cases sub <;> rfl
  · cases sub <;> rfl
  · rw [app_run_of_valid k model cfg (fun t c => .ok (f t c)) sub hk hv]
    cases sub <;> rfl

/-- Witness for C3: a concrete valid email submission with an
all-succeeding external capability runs the four stages in order. -/
theorem pipeline_four_stages_witness :
    (submission_crew "gpt-4o" cfgW subW).process = ProcessKind.sequential ∧
    (submission_crew "gpt-4o" cfgW subW).tasks.length = 4 ∧
    (submission_crew "gpt-4o" cfgW subW).tasks.map (fun t => t.agent.role) =
      ["Email Information Extractor", "Company Research Specialist",
        "Lead Qualification Specialist", "Sales Strategy Advisor"] ∧
    (app_run (some "sk-test") "gpt-4o" cfgW (fun t c => .ok ((fun _ _ => "o") t c)) subW).2.map
        (fun r => r.task) =
      (submission_crew "gpt-4o" cfgW subW).tasks :=
  pipeline_four_sequential_stages "gpt-4o" "sk-test" cfgW subW (fun _ _ => "o")
    (by decide) (by rfl)

/-- C4: a submission whose email field does not match the regex is
rejected with a validation error and no pipeline stage starts, on both
adapters. -/
theorem malformed_email_rejected_before_pipeline
    (k model : String) (cfg : TargetConfig)
    (execTask : TaskSpec → List String → TaskResult) (sub : Submission)
    (hk : k ≠ "") (hbad : pyEmailMatch (submission_email sub) = false) :
    ∃ m, app_run (some k) model cfg execTask sub = (Display.validationError m, []) := by
  cases sub with
  | email s b c =>
    simp only [submission_email] at hbad
    by_cases hmiss : s = "" ∨ b = "" ∨ c = ""
    · exact ⟨_, app_run_of_validation_error k model cfg execTask _ _ hk
        (validate_of_missing _ hmiss)⟩
    · refine ⟨"❌ Invalid email address",
        app_run_of_validation_error k model cfg execTask _ _ hk ?_⟩
      simp [validate, hmiss, hbad]
  | form n co d e q =>
    simp only [submission_email] at hbad
    by_cases hmiss : n = "" ∨ co = "" ∨ e = "" ∨ q = ""
    · exact ⟨_, app_run_of_validation_error k model cfg execTask _ _ hk
        (validate_of_missing _ hmiss)⟩
    · refine ⟨"❌ Invalid email address",
        app_run_of_validation_error k model cfg execTask _ _ hk ?_⟩
      simp [validate, hmiss, hbad]

/-- Witness for C4: the sender email "not-an-email" is rejected before
any stage starts. -/
theorem malformed_email_witness :
    ∃ m, app_run (some "sk-test") "gpt-4o" cfgW okExec
        (Submission.email "not-an-email" "Subject" "Body") =
      (Display.validationError m, []) :=
  malformed_email_rejected_before_pipeline "sk-test" "gpt-4o" cfgW okExec
    (Submission.email "not-an-email" "Subject" "Body") (by decide) (by rfl)

/-- C5: a submission with any required field empty (email adapter:
sender email, subject, content; form adapter: name, company, email,
query) is rejected with a validation error and zero pipeline stages
execute. -/
theorem empty_required_field_rejected_before_pipeline
    (k model : String) (cfg : TargetConfig)
    (execTask : TaskSpec → List String → TaskResult) (sub : Submission)
    (hk : k ≠ "") (hmiss : has_empty_required_field sub) :
    app_run (some k) model cfg execTask sub =
      (Display.validationError "❌ Please fill all required fields", []) :=
  app_run_of_validation_error k model cfg execTask sub _ hk (validate_of_missing sub hmiss)

/-- Witness for C5: a form submission missing its query is rejected with
the validation error and zero stages executed (spec §8, scenario 3). -/
theorem empty_required_field_witness :
    app_run (some "sk-test") "gpt-4o" cfgW okExec
        (Submission.form "John Doe" "Acme Corp" "Manager" "john@acme.com" "") =
      (Display.validationError "❌ Please fill all required fields", []) :=
  empty_required_field_rejected_before_pipeline "sk-test" "gpt-4o" cfgW okExec
    (Submission.form "John Doe" "Acme Corp" "Manager" "john@acme.com" "")
    (by decide) (Or.inr (Or.inr (Or.inr rfl)))

/-- C9: the non-empty required-field check runs before the email-format
regex check: a submission with both an empty required field and a
malformed email address is rejected with the missing-field message, not
the invalid-email message. -/
theorem required_field_check_runs_before_regex
    (k model : String) (cfg : TargetConfig)
    (execTask : TaskSpec → List String → TaskResult) (sub : Submission)
    (hk : k ≠ "") (hmiss : has_empty_required_field sub)
    (_hbad : pyEmailMatch (submission_email sub) = false) :
    app_run (some k) model cfg execTask sub =
      (Display.validationError "❌ Please fill all required fields", []) ∧
    validate sub ≠ some "❌ Invalid email address" := by
  refine ⟨app_run_of_validation_error k model cfg execTask sub _ hk
    (validate_of_missing sub hmiss), ?_⟩
  rw [validate_of_missing sub hmiss]
  intro hcontra
  exact absurd (Option.some.inj hcontra) (by decide)

/-- Witness for C9: an empty sender email is both a missing required
field and a regex failure; the missing-field error is the one shown. -/
theorem required_field_before_regex_witness :
    app_run (some "sk-test") "gpt-4o" cfgW okExec
        (Submission.email "" "Subject" "Body") =
      (Display.validationError "❌ Please fill all required fields", []) ∧
    validate (Submission.email "" "Subject" "Body") ≠ some "❌ Invalid email address" :=
  required_field_check_runs_before_regex "sk-test" "gpt-4o" cfgW okExec
    (Submission.email "" "Subject" "Body") (by decide) (Or.inl rfl) (by rfl)

/-- C6: if a stage of the pipeline raises, no later stage executes (the
failing stage is the run's last record), and the run is reported as
failed exactly once, with the generic message "Error: " followed by the
underlying failure description and no stage output surfaced. -/
theorem stage_failure_aborts_and_reports_once
    (k model : String) (cfg : TargetConfig)
    (execTask : TaskSpec → List String → TaskResult) (sub : Submission)
    (i : Nat) (r : StageRecord) (m : String)
    (hk : k ≠ "") (hv : validate sub = none)
    (hr : (runSeqRec execTask (submission_crew model cfg sub).tasks [])[i]? = some r)
    (herr : r.out = .err m) :
    (runSeqRec execTask (submission_crew model cfg sub).tasks []).length = i + 1 ∧
    app_run (some k) model cfg execTask sub =
      (Display.failure ("Error: " ++ m),
        runSeqRec execTask (submission_crew model cfg sub).tasks []) := by
  obtain ⟨hlen, hlast⟩ := runSeqRec_err_at execTask _ [] i r m hr herr
  refine ⟨hlen, ?_⟩
  rw [app_run_of_valid k model cfg execTask sub hk hv]
  simp [hlast, herr]

/-- Witness for C6: a first stage raising "boom" on a concrete valid
email submission yields exactly one record and the single failure
display "Error: boom". -/
theorem stage_failure_witness :
    (runSeqRec errExec (submission_crew "gpt-4o" cfgW subW).tasks []).length = 0 + 1 ∧
    app_run (some "sk-test") "gpt-4o" cfgW errExec subW =
      (Display.failure ("Error: " ++ "boom"),
        runSeqRec errExec (submission_crew "gpt-4o" cfgW subW).tasks []) :=
  stage_failure_aborts_and_reports_once "sk-test" "gpt-4o" cfgW errExec subW 0
    (StageRecord.mk (email_parse_task (create_lead_qualification_crew "gpt-4o")
        "john@acme.com" "Pricing" "We need enterprise pricing for 500 seats")
      [] (TaskResult.err "boom"))
    "boom" (by decide) (by rfl) (by rfl) (by rfl)

/-- C7 counterexample: the claim says only the stage-1 instructions of
the two adapters differ, but on a concrete target configuration and
company name the stage-2 (Enrich), stage-3 (Score) and stage-4
(Recommend) instruction texts of the email adapter and the form adapter
all differ as well. -/
theorem adapters_stage234_instructions_differ :
    (email_research_task (create_lead_qualification_crew "gpt-4o")).description ≠
      (form_research_task (create_lead_qualification_crew "gpt-4o") "Acme Corp").description ∧
    (email_score_task (create_lead_qualification_crew "gpt-4o") cfgW).description ≠
      (form_score_task (create_lead_qualification_crew "gpt-4o") cfgW).description ∧
    (email_recommendation_task (create_lead_qualification_crew "gpt-4o")).description ≠
      (form_recommendation_task (create_lead_qualification_crew "gpt-4o")).description := by
  refine ⟨?_, ?_, ?_⟩ <;> decide

/-- C7 amended: the two adapters build the same four-stage shape — the
same agent list, the same agent per stage, the same context wiring, the
same sequential process — and both score tasks embed the same rendered
target-configuration block; but the stage-2..4 instruction texts differ
between the adapters, not only stage 1. -/
theorem adapters_same_shape_same_targets
    (model s b c n co d e q : String) (cfg : TargetConfig) :
    (email_crew (create_lead_qualification_crew model) s b c cfg).agents =
      (form_crew (create_lead_qualification_crew model) n co d e q cfg).agents ∧
    (email_crew (create_lead_qualification_crew model) s b c cfg).process =
      ProcessKind.sequential ∧
    (form_crew (create_lead_qualification_crew model) n co d e q cfg).process =
      ProcessKind.sequential ∧
    (email_crew (create_lead_qualification_crew model) s b c cfg).tasks.length = 4 ∧
    (form_crew (create_lead_qualification_crew model) n co d e q cfg).tasks.length = 4 ∧
    (email_crew (create_lead_qualification_crew model) s b c cfg).tasks.map
        (fun t => t.agent) =
      (form_crew (create_lead_qualification_crew model) n co d e q cfg).tasks.map
        (fun t => t.agent) ∧
    (email_crew (create_lead_qualification_crew model) s b c cfg).tasks.map
        (fun t => t.context) =
      (form_crew (create_lead_qualification_crew model) n co d e q cfg).tasks.map
        (fun t => t.context) ∧
    (∃ a z, (email_score_task (create_lead_qualification_crew model) cfg).description =
      a ++ target_criteria_text cfg ++ z) ∧
    (∃ a z, (form_score_task (create_lead_qualification_crew model) cfg).description =
      a ++ target_criteria_text cfg ++ z) :=
  ⟨rfl, rfl, rfl, rfl, rfl, rfl, rfl,
    ⟨"\nScore this lead out of 100 points based on:\n\n",
      "\n\nScoring Rubric (100 points total):\n\n1. Email Domain Score (20 points):\n- Business email domain (not gmail/yahoo/hotmail): 20 points\n- Generic email but company mentioned: 10 points\n- Generic email only: 0 points\n\n2. Company Fit Score (40 points):\n- Industry matches target: 20 points\n- Company size matches target: 10 points\n- Location matches target region: 10 points\n\n3. Contact Role Score (20 points):\n- C-level, VP, Director (decision maker): 20 points\n- Manager, Lead, Specialist (influencer): 10 points\n- No clear role or junior role: 0 points\n\n4. Message Intent Score (20 points):\n- Specific interest/request with clear need: 20 points\n- General inquiry about services: 10 points\n- Vague or spam-like message: 0 points\n\nReturn:\n- Total score (0-100)\n- Breakdown for each category with justification\n- Qualification status (Qualified 80+, Needs Review 50-79, Unqualified <50)\n",
      rfl⟩,
    ⟨"\nScore this lead using the same 100-point rubric:\n\n",
      "\n\nApply the scoring rubric and return detailed breakdown.\n", rfl⟩⟩

/-- C8: when the operator-supplied LLM credential is absent from the
process environment, the startup check blocks all request processing —
every submission yields the missing-key display and zero pipeline
stages — and when a non-empty credential is present the missing-key
display is never shown. -/
theorem missing_credential_blocks_processing
    (env : Option String) (model k msg : String) (cfg : TargetConfig)
    (execTask : TaskSpec → List String → TaskResult) (sub : Submission)
    (habsent : env = none) (hk : k ≠ "") :
    app_run env model cfg execTask sub =
      (Display.apiKeyMissing "⚠️ Please set your OpenAI API key", []) ∧
    (app_run (some k) model cfg execTask sub).1 ≠ Display.apiKeyMissing msg := by
  constructor
  · subst habsent
    rfl
  · rcases hv : validate sub with _ | m
    · rw [app_run_of_valid k model cfg execTask sub hk hv]
      rcases hlast : (runSeqRec execTask (submission_crew model cfg sub).tasks []).getLast?
        with _ | r
      · simp
      · rcases hout : r.out with o | m' <;> simp [hout]
    · rw [app_run_of_validation_error k model cfg execTask sub m hk hv]
      simp

/-- Witness for C8: with no key in the environment a concrete valid
submission is blocked; with the key "sk-test" it is not blocked. -/
theorem missing_credential_witness :
    app_run none "gpt-4o" cfgW okExec subW =
      (Display.apiKeyMissing "⚠️ Please set your OpenAI API key", []) ∧
    (app_run (some "sk-test") "gpt-4o" cfgW okExec subW).1 ≠ Display.apiKeyMissing "nope" :=
  missing_credential_blocks_processing none "gpt-4o" "sk-test" "nope" cfgW okExec subW
    rfl (by decide)

/-- C10: the form's designation field is optional: validation ignores
it (the required-field check reads the same on any designation), a form
submission with it empty passes validation, and the stage-1 instruction
text then contains the literal substitute "Not provided". -/
theorem designation_optional_not_provided
    (model k name company designation email query msg : String) (cfg : TargetConfig)
    (execTask : TaskSpec → List String → TaskResult)
    (hk : k ≠ "") (hn : name ≠ "") (hc : company ≠ "") (hq : query ≠ "")
    (he : pyEmailMatch email = true) :
    validate (.form name company designation email query) =
      validate (.form name company "" email query) ∧
    validate (.form name company "" email query) = none ∧
    (∃ a z, (form_structure_task (create_lead_qualification_crew model)
        name company "" email query).description = a ++ "Not provided" ++ z) ∧
    (app_run (some k) model cfg execTask (.form name company "" email query)).1 ≠
      Display.validationError msg := by
  have hemail : email ≠ "" := ne_empty_of_pyEmailMatch email he
  have hv : validate (.form name company "" email query) = none := by
    simp [validate, hn, hc, hq, hemail, he]
  refine ⟨rfl, hv, ?_, ?_⟩
  · refine ⟨"\nStructure the following form submission data:\n- Name: " ++ name ++
      "\n- Company: " ++ company ++ "\n- Designation: ",
      "\n- Email: " ++ email ++ "\n- Query: " ++ query ++
        "\n\nExtract:\n1. Email domain\n2. Assess if email is business or personal\n3. Classify the intent/purpose from the query\n\nReturn structured format.\n", ?_⟩
    simp only [form_structure_task, if_true, eq_self_iff_true, String.append_assoc]
  · rw [app_run_of_valid k model cfg execTask _ hk hv]
    rcases hlast : (runSeqRec execTask
        (submission_crew model cfg (.form name company "" email query)).tasks []).getLast?
      with _ | r
    · simp
    · rcases hout : r.out with o | m' <;> simp [hout]

/-- Witness for C10: a concrete form submission with an empty job title
passes validation and its stage-1 instruction says "Not provided". -/
theorem designation_optional_witness :
    validate (.form "John Doe" "Acme Corp" "CEO" "john@acme.com" "Need pricing") =
      validate (.form "John Doe" "Acme Corp" "" "john@acme.com" "Need pricing") ∧
    validate (.form "John Doe" "Acme Corp" "" "john@acme.com" "Need pricing") = none ∧
    (∃ a z, (form_structure_task (create_lead_qualification_crew "gpt-4o")
        "John Doe" "Acme Corp" "" "john@acme.com" "Need pricing").description =
      a ++ "Not provided" ++ z) ∧
    (app_run (some "sk-test") "gpt-4o" cfgW okExec
        (.form "John Doe" "Acme Corp" "" "john@acme.com" "Need pricing")).1 ≠
      Display.validationError "❌ Please fill all required fields" :=
  designation_optional_not_provided "gpt-4o" "sk-test" "John Doe" "Acme Corp" "CEO"
    "john@acme.com" "Need pricing" "❌ Please fill all required fields" cfgW okExec
    (by decide) (by decide) (by decide) (by decide) (by rfl)

end LeadQual
